import Mathlib

/-!
Shallow embedding of the ecs-native-blue-green repository.

The embedding follows the TypeScript sources:
- lib/construct/ecs-construct.ts  (EcsConstruct: task definition, containers,
  container dependencies, service configuration, load-balancer target)
- lib/construct/alb-construct.ts  (AlbConstruct: listeners, rules, target groups)
- src/container/app/src/lib/db.ts (getPool, initializeDatabase, closePool)
- src/container/app/src/router.ts (the /health endpoint handler)
- src/container/app/src/index.ts  (startServer)

CDK-token-valued strings (cluster name, region, secret names, endpoints) are
modelled as opaque string parameters collected in CdkContext; the construct
logic never inspects them, only forwards them.
-/

/-- Condition on a container dependency edge
(cdk.aws_ecs.ContainerDependencyCondition). -/
inductive DepCondition where
  | START
  | SUCCESS
  | HEALTHY
  | COMPLETE
deriving DecidableEq, Repr

/-- A mount point added to a container via addMountPoints. -/
structure MountPoint where
  sourceVolume : String
  containerPath : String
  readOnly : Bool
deriving DecidableEq, Repr

/-- A secret reference attached to a container definition
(cdk.aws_ecs.Secret.fromSecretsManager / fromSsmParameter). -/
inductive EcsSecret where
  | secretsManager (secretName : String) (field : String)
  | ssmParameter (parameterName : String)
deriving DecidableEq, Repr

/-- One container of the task definition, with the fields the claims are
about.  environment and secrets are insertion-ordered association lists,
mirroring the JavaScript Record objects. -/
structure Container where
  name : String
  essential : Bool
  portMappings : List Nat
  environment : List (String × String)
  secrets : List (String × EcsSecret)
  mountPoints : List MountPoint
deriving DecidableEq, Repr

/-- A container dependency edge: dependent waits for dependsOn under the
given condition (dependent.addContainerDependencies within ecs-construct.ts). -/
structure Edge where
  dependent : String
  dependsOn : String
  condition : DepCondition
deriving DecidableEq, Repr

/-- The firelens prop group of EcsConstructProps (only the string-valued
attributes the construct reads). -/
structure FirelensProps where
  logGroupName : String
  deliveryStreamName : String
  confBucketArn : String
deriving DecidableEq, Repr

/-- The aurora prop group of EcsConstructProps; the secret is identified by
its name. -/
structure AuroraProps where
  secretName : String
deriving DecidableEq, Repr

/-- The valkey prop group of EcsConstructProps. -/
structure ValkeyProps where
  endpoint : String
  port : Nat
deriving DecidableEq, Repr

/-- EcsConstructProps (ecs-construct.ts).  The optional feature groups are
Options; the optional booleans are Bools (in the source an undefined flag
and a false flag behave identically in every test of the flag). -/
structure EcsConstructProps where
  firelens : Option FirelensProps
  enableFluentBitMetrics : Bool
  aurora : Option AuroraProps
  valkey : Option ValkeyProps
  enableApplicationSignals : Bool
deriving DecidableEq, Repr

/-- Deploy-time CDK values the construct only forwards into container
definitions (this.cluster.clusterName, Stack region, Names.uniqueId). -/
structure CdkContext where
  clusterName : String
  region : String
  uniqueId : String
deriving DecidableEq, Repr

/-- createTaskDefinition adds the opentelemetry-auto-instrumentation volume
exactly when Application Signals is enabled. -/
def taskVolumes (p : EcsConstructProps) : List String :=
  if p.enableApplicationSignals then ["opentelemetry-auto-instrumentation"] else []

/-- The OTEL_RESOURCE_ATTRIBUTES value assembled in buildAppEnvironment. -/
def otelResourceAttributes (ctx : CdkContext) (p : EcsConstructProps) : String :=
  String.intercalate ","
    (["service.name=ecs-express-app",
      "deployment.environment=ecs:" ++ ctx.clusterName] ++
     (match p.firelens with
      | some f => ["aws.log.group.names=" ++ f.logGroupName]
      | none => []))

/-- buildAppEnvironment (ecs-construct.ts lines 177-270): valkey entries
when valkey is configured, then the Application Signals / OTEL entries when
tracing is enabled. -/
def buildAppEnvironment (ctx : CdkContext) (p : EcsConstructProps) :
    List (String × String) :=
  (match p.valkey with
   | some v =>
       [("VALKEY_HOST", v.endpoint),
        ("VALKEY_PORT", toString v.port),
        ("VALKEY_TLS", "true")]
   | none => []) ++
  (if p.enableApplicationSignals then
     [("NODE_OPTIONS", "--require /otel-auto-instrumentation/autoinstrumentation.js"),
      ("OTEL_RESOURCE_ATTRIBUTES", otelResourceAttributes ctx p),
      ("OTEL_EXPORTER_OTLP_PROTOCOL", "http/protobuf"),
      ("OTEL_EXPORTER_OTLP_ENDPOINT", "http://localhost:4318"),
      ("OTEL_TRACES_EXPORTER", "otlp"),
      ("OTEL_METRICS_EXPORTER", "none"),
      ("OTEL_LOGS_EXPORTER", "none"),
      ("OTEL_TRACES_SAMPLER", "xray"),
      ("OTEL_TRACES_SAMPLER_ARG", "endpoint=http://localhost:2000,polling_interval=300"),
      ("OTEL_PROPAGATORS", "tracecontext,baggage,xray"),
      ("OTEL_AWS_APPLICATION_SIGNALS_ENABLED", "false")]
   else [])

/-- buildAppSecrets (ecs-construct.ts lines 272-299): the five database
secret references when aurora is configured, none otherwise. -/
def buildAppSecrets (p : EcsConstructProps) : List (String × EcsSecret) :=
  match p.aurora with
  | some a =>
      [("DB_HOST", EcsSecret.secretsManager a.secretName "host"),
       ("DB_PORT", EcsSecret.secretsManager a.secretName "port"),
       ("DB_USERNAME", EcsSecret.secretsManager a.secretName "username"),
       ("DB_PASSWORD", EcsSecret.secretsManager a.secretName "password"),
       ("DB_NAME", EcsSecret.secretsManager a.secretName "dbname")]
  | none => []

/-- The ADOT auto-instrumentation init container
(addAdotAutoInstrumentationInitContainer). -/
def adotInitContainer : Container :=
  { name := "init"
    essential := false
    portMappings := []
    environment := []
    secrets := []
    mountPoints :=
      [{ sourceVolume := "opentelemetry-auto-instrumentation"
         containerPath := "/otel-auto-instrumentation"
         readOnly := false }] }

/-- The web container (addWebContainer). -/
def webContainer : Container :=
  { name := "web"
    essential := true
    portMappings := [80]
    environment := []
    secrets := []
    mountPoints := [] }

/-- The application container (addAppContainer): environment and secrets
from the builders, plus the read-only auto-instrumentation mount when
tracing is enabled. -/
def appContainer (ctx : CdkContext) (p : EcsConstructProps) : Container :=
  { name := "app"
    essential := true
    portMappings := []
    environment := buildAppEnvironment ctx p
    secrets := buildAppSecrets p
    mountPoints :=
      if p.enableApplicationSignals then
        [{ sourceVolume := "opentelemetry-auto-instrumentation"
           containerPath := "/otel-auto-instrumentation"
           readOnly := true }]
      else [] }

/-- The FireLens log router container (setupFireLens,
taskDefinition.addFirelensLogRouter with construct id logRouter). -/
def logRouterContainer (f : FirelensProps) : Container :=
  { name := "logRouter"
    essential := true
    portMappings := []
    environment :=
      [("LOG_GROUP_NAME", f.logGroupName),
       ("FIREHOSE_DELIVERY_STREAM_NAME", f.deliveryStreamName),
       ("aws_fluent_bit_init_s3_1", f.confBucketArn ++ "/extra.conf"),
       ("aws_fluent_bit_init_s3_2", f.confBucketArn ++ "/parsers_custom.conf")]
    secrets := []
    mountPoints := [] }

/-- The ADOT collector container (setupAdotCollector). -/
def adotCollectorContainer (ctx : CdkContext) : Container :=
  { name := "adot-collector"
    essential := false
    portMappings := []
    environment := [("AWS_REGION", ctx.region)]
    secrets :=
      [("AOT_CONFIG_CONTENT",
        EcsSecret.ssmParameter ("/ecs/" ++ ctx.uniqueId ++ "/otel-config"))]
    mountPoints := [] }

/-- All containers added to the task definition, in the order the
constructor adds them: init (when tracing), web, app, then inside
setupFireLens the log router and, when metrics or tracing is enabled, the
ADOT collector. -/
def ecsContainers (ctx : CdkContext) (p : EcsConstructProps) : List Container :=
  (if p.enableApplicationSignals then [adotInitContainer] else []) ++
  [webContainer, appContainer ctx p] ++
  (match p.firelens with
   | none => []
   | some f =>
       [logRouterContainer f] ++
       (if p.enableFluentBitMetrics || p.enableApplicationSignals then
          [adotCollectorContainer ctx]
        else []))

/-- All container dependency edges declared by the constructor, in program
order: app waits on init with SUCCESS (addAppContainer, when tracing), web
waits on app with HEALTHY (setupContainerDependencies), and the ADOT
collector waits on the log router with START (setupAdotCollector, only
reached when firelens is configured and metrics or tracing is enabled). -/
def ecsEdges (p : EcsConstructProps) : List Edge :=
  (if p.enableApplicationSignals then
     [{ dependent := "app", dependsOn := "init", condition := DepCondition.SUCCESS }]
   else []) ++
  [{ dependent := "web", dependsOn := "app", condition := DepCondition.HEALTHY }] ++
  (match p.firelens with
   | none => []
   | some _ =>
       if p.enableFluentBitMetrics || p.enableApplicationSignals then
         [{ dependent := "adot-collector", dependsOn := "logRouter",
            condition := DepCondition.START }]
       else [])

/-- ECS deployment strategy (cdk.aws_ecs.DeploymentStrategy). -/
inductive DeploymentStrategyKind where
  | ROLLING
  | BLUE_GREEN
deriving DecidableEq, Repr

/-- The service-level configuration fixed by createService
(ecs-construct.ts lines 503-519). -/
structure ServiceConfig where
  desiredCount : Nat
  minHealthyPercent : Nat
  maxHealthyPercent : Nat
  deploymentStrategy : DeploymentStrategyKind
  bakeTimeSeconds : Nat
  circuitBreakerRollback : Bool
  healthCheckGracePeriodSeconds : Nat
deriving DecidableEq, Repr

/-- createService: the same literal configuration for every props value. -/
def createService (_p : EcsConstructProps) : ServiceConfig :=
  { desiredCount := 2
    minHealthyPercent := 100
    maxHealthyPercent := 200
    deploymentStrategy := DeploymentStrategyKind.BLUE_GREEN
    bakeTimeSeconds := 60
    circuitBreakerRollback := true
    healthCheckGracePeriodSeconds := 10 }

/-- First container with the given name (taskDefinition.findContainer). -/
def findContainer (cs : List Container) (n : String) : Option Container :=
  cs.find? (fun c => c.name == n)

/-- Value bound to a key in an association-list environment. -/
def lookupEnv (env : List (String × String)) (k : String) : Option String :=
  (env.find? (fun kv => kv.fst == k)).map (fun kv => kv.snd)

/-- The four tracing-exporter environment keys named by the spec sentence
about Scenario C. -/
def otelTracingExporterKeys : List String :=
  ["OTEL_EXPORTER_OTLP_ENDPOINT", "OTEL_EXPORTER_OTLP_PROTOCOL",
   "OTEL_TRACES_SAMPLER", "OTEL_PROPAGATORS"]

/-- An ALB listener (alb.addListener): its port and default target groups,
target groups identified by their construct ids. -/
structure AlbListener where
  port : Nat
  defaultTargetGroups : List String
deriving DecidableEq, Repr

/-- An ApplicationListenerRule: the listener it is attached to (by port),
its priority, path-pattern conditions, and the target groups its forward
action points at. -/
structure AlbListenerRule where
  listenerPort : Nat
  priority : Nat
  pathPatterns : List String
  forwardTargetGroups : List String
deriving DecidableEq, Repr

/-- The outputs of AlbConstruct (alb-construct.ts). -/
structure AlbConstructOutputs where
  tg1 : String
  tg2 : String
  listener : AlbListener
  testListener : AlbListener
  listenerRule : AlbListenerRule
  testListenerRule : AlbListenerRule
deriving DecidableEq, Repr

/-- AlbConstruct as written: listener on port 80 defaulting and ruling to
Tg1, test listener on port 10080 defaulting and ruling to Tg2. -/
def mkAlbConstruct : AlbConstructOutputs :=
  { tg1 := "Tg1"
    tg2 := "Tg2"
    listener := { port := 80, defaultTargetGroups := ["Tg1"] }
    testListener := { port := 10080, defaultTargetGroups := ["Tg2"] }
    listenerRule :=
      { listenerPort := 80, priority := 1, pathPatterns := ["*"],
        forwardTargetGroups := ["Tg1"] }
    testListenerRule :=
      { listenerPort := 10080, priority := 1, pathPatterns := ["*"],
        forwardTargetGroups := ["Tg2"] } }

/-- The load-balancer attachment produced by setupLoadBalancerTarget:
service.loadBalancerTarget on the web container with tg2 as alternate
target group and both listener rules, then attached to tg1. -/
structure ServiceLoadBalancerTarget where
  containerName : String
  containerPort : Nat
  primaryTargetGroup : String
  alternateTargetGroup : String
  productionListenerRule : AlbListenerRule
  testListenerRule : AlbListenerRule
deriving DecidableEq, Repr

/-- setupLoadBalancerTarget (ecs-construct.ts lines 541-562). -/
def setupLoadBalancerTarget (alb : AlbConstructOutputs) : ServiceLoadBalancerTarget :=
  { containerName := webContainer.name
    containerPort := 80
    primaryTargetGroup := alb.tg1
    alternateTargetGroup := alb.tg2
    productionListenerRule := alb.listenerRule
    testListenerRule := alb.testListenerRule }

/-- Inputs of one /health request: whether the database pool and the valkey
client are configured, and whether their connectivity probes (SELECT 1,
ping) succeed or throw. -/
structure HealthState where
  dbConfigured : Bool
  dbProbeOk : Bool
  cacheConfigured : Bool
  cacheProbeOk : Bool
deriving DecidableEq, Repr

/-- HTTP status code and the status field of the JSON body. -/
structure HttpResponse where
  statusCode : Nat
  healthStatus : String
deriving DecidableEq, Repr

/-- The /health handler of the application router: inside the try block the
database probe runs first (when a pool is configured), then the cache
probe (when a valkey client is configured), then res.json replies 200 with
status healthy; any thrown probe error reaches the catch block which
replies 503 with status unhealthy. -/
def healthHandler (s : HealthState) : HttpResponse :=
  if s.dbConfigured && !s.dbProbeOk then
    { statusCode := 503, healthStatus := "unhealthy" }
  else if s.cacheConfigured && !s.cacheProbeOk then
    { statusCode := 503, healthStatus := "unhealthy" }
  else
    { statusCode := 200, healthStatus := "healthy" }

/-- getPool (db.ts lines 4-26): the module-level pool is null when
process.env.DB_HOST is unset (or empty, which is falsy in JavaScript); the
pool is identified here by its host. -/
def getPool (dbHost : Option String) : Option String :=
  match dbHost with
  | none => none
  | some h => if h = "" then none else some h

/-- Result of initializeDatabase: skipped when no pool is configured,
initialized after a successful attempt, or gaveUp after exhausting all
retries with only a logged error. -/
inductive InitDbResult where
  | skipped
  | initialized (attempt : Nat)
  | gaveUp
deriving DecidableEq, Repr

/-- The retry loop of initializeDatabase: each attempt runs createTables
(whose outcome for attempt number i is outcomes i); a thrown error is
caught, logged and retried; a success returns at once; exhaustion falls
through to a final error log.  The Except codomain records that the
function itself could reject; it never does. -/
def initRetryLoop (outcomes : Nat → Except String Unit) (attempt : Nat) :
    Nat → Except String InitDbResult
  | 0 => Except.ok InitDbResult.gaveUp
  | remaining + 1 =>
      match outcomes attempt with
      | Except.ok _ => Except.ok (InitDbResult.initialized attempt)
      | Except.error _ => initRetryLoop outcomes (attempt + 1) remaining

/-- initializeDatabase (db.ts lines 61-91): immediate return when the pool
is null, otherwise the retry loop over attempts 1..maxRetries. -/
def initializeDatabase (pool : Option String)
    (outcomes : Nat → Except String Unit) (maxRetries : Nat) :
    Except String InitDbResult :=
  match pool with
  | none => Except.ok InitDbResult.skipped
  | some _ => initRetryLoop outcomes 1 maxRetries

/-- startServer (index.ts): awaits initializeDatabase, then binds the HTTP
listener; a rejection would skip the bind and exit the process. -/
def startServer (pool : Option String)
    (outcomes : Nat → Except String Unit) (maxRetries : Nat) :
    Except String Bool :=
  match initializeDatabase pool outcomes maxRetries with
  | Except.ok _ => Except.ok true
  | Except.error e => Except.error e

/-- closePool (db.ts lines 86-91) as its list of performed actions: nothing
when the pool is null. -/
def closePoolActions (pool : Option String) : List String :=
  match pool with
  | none => []
  | some _ => ["pool.end", "log PostgreSQL pool closed"]

/-- A dependency path through a set of edges, following edges from a
dependent container to a container it (transitively) waits on. -/
inductive DependsPath (es : List Edge) : String → String → Prop where
  | step (e : Edge) (he : e ∈ es) : DependsPath es e.dependent e.dependsOn
  | trans (e : Edge) (c : String) (he : e ∈ es)
      (tail : DependsPath es e.dependsOn c) : DependsPath es e.dependent c

/-- A set of dependency edges is acyclic when no container transitively
waits on itself. -/
def Acyclic (es : List Edge) : Prop :=
  ∀ n, ¬ DependsPath es n n

/-- Along any dependency path, a rank function that strictly drops across
every edge strictly drops overall. -/
theorem DependsPath.rank_lt (es : List Edge) (rank : String → Nat)
    (hrank : ∀ e ∈ es, rank e.dependsOn < rank e.dependent) :
    ∀ a b, DependsPath es a b → rank b < rank a := by
  intro a b hp
  induction hp with
  | step e he => exact hrank e he
  | trans e c he _tail ih => exact lt_trans ih (hrank e he)

/-- A set of edges admitting a strictly decreasing rank is acyclic. -/
theorem acyclic_of_rank (es : List Edge) (rank : String → Nat)
    (hrank : ∀ e ∈ es, rank e.dependsOn < rank e.dependent) :
    Acyclic es := by
  intro n hp
  exact lt_irrefl _ (DependsPath.rank_lt es rank hrank n n hp)

/-- Claim C1: for every EcsConstructProps, when enableApplicationSignals is
true the task definition contains the init container (non-essential), the
application container depends on it with condition SUCCESS, init and app
share the opentelemetry-auto-instrumentation volume, and the application
environment carries non-empty values for the four tracing-exporter keys;
when enableApplicationSignals is false no init container exists and none of
those keys are present. -/
theorem claimC1_application_signals_wiring :
    ∀ (ctx : CdkContext) (p : EcsConstructProps),
      (p.enableApplicationSignals = true →
        findContainer (ecsContainers ctx p) "init" = some adotInitContainer ∧
        findContainer (ecsContainers ctx p) "app" = some (appContainer ctx p) ∧
        ({ dependent := "app", dependsOn := "init",
           condition := DepCondition.SUCCESS } : Edge) ∈ ecsEdges p ∧
        adotInitContainer.essential = false ∧
        ({ sourceVolume := "opentelemetry-auto-instrumentation",
           containerPath := "/otel-auto-instrumentation",
           readOnly := false } : MountPoint) ∈ adotInitContainer.mountPoints ∧
        ({ sourceVolume := "opentelemetry-auto-instrumentation",
           containerPath := "/otel-auto-instrumentation",
           readOnly := true } : MountPoint) ∈ (appContainer ctx p).mountPoints ∧
        "opentelemetry-auto-instrumentation" ∈ taskVolumes p ∧
        (∀ k ∈ otelTracingExporterKeys,
          ∃ v, lookupEnv (appContainer ctx p).environment k = some v ∧ v ≠ "")) ∧
      (p.enableApplicationSignals = false →
        findContainer (ecsContainers ctx p) "init" = none ∧
        (∀ k ∈ otelTracingExporterKeys,
          lookupEnv (appContainer ctx p).environment k = none)) := by
  intro ctx p
  obtain ⟨fl, m, au, vk, tr⟩ := p
  cases tr with
  | true =>
      refine ⟨fun _ => ?_, fun h => (by simp at h)⟩
      refine ⟨rfl, rfl, ?_, rfl, ?_, ?_, ?_, ?_⟩
      · simp [ecsEdges]
      · simp [adotInitContainer]
      · simp [appContainer]
      · simp [taskVolumes]
      · intro k hk
        simp only [otelTracingExporterKeys, List.mem_cons, List.not_mem_nil,
          or_false] at hk
        cases vk with
        | none =>
            rcases hk with rfl | rfl | rfl | rfl
            · exact ⟨_, rfl, by decide⟩
            · exact ⟨_, rfl, by decide⟩
            · exact ⟨_, rfl, by decide⟩
            · exact ⟨_, rfl, by decide⟩
        | some v =>
            rcases hk with rfl | rfl | rfl | rfl
            · exact ⟨_, rfl, by decide⟩
            · exact ⟨_, rfl, by decide⟩
            · exact ⟨_, rfl, by decide⟩
            · exact ⟨_, rfl, by decide⟩
  | false =>
      refine ⟨fun h => (by simp at h), fun _ => ?_⟩
      constructor
      · cases fl <;> cases m <;> rfl
      · intro k hk
        simp only [otelTracingExporterKeys, List.mem_cons, List.not_mem_nil,
          or_false] at hk
        cases vk with
        | none => rcases hk with rfl | rfl | rfl | rfl <;> rfl
        | some v => rcases hk with rfl | rfl | rfl | rfl <;> rfl

/-- Witness for claim C1 at concrete inputs: tracing on yields the init
container and the SUCCESS edge, tracing off yields no init container. -/
theorem claimC1_witness :
    findContainer
      (ecsContainers (⟨"cluster", "region", "uid"⟩ : CdkContext)
        (⟨none, false, none, none, true⟩ : EcsConstructProps)) "init" =
      some adotInitContainer ∧
    ({ dependent := "app", dependsOn := "init",
       condition := DepCondition.SUCCESS } : Edge) ∈
      ecsEdges (⟨none, false, none, none, true⟩ : EcsConstructProps) ∧
    findContainer
      (ecsContainers (⟨"cluster", "region", "uid"⟩ : CdkContext)
        (⟨none, false, none, none, false⟩ : EcsConstructProps)) "init" = none :=
  ⟨((claimC1_application_signals_wiring ⟨"cluster", "region", "uid"⟩
      ⟨none, false, none, none, true⟩).1 rfl).1,
   ((claimC1_application_signals_wiring ⟨"cluster", "region", "uid"⟩
      ⟨none, false, none, none, true⟩).1 rfl).2.2.1,
   ((claimC1_application_signals_wiring ⟨"cluster", "region", "uid"⟩
      ⟨none, false, none, none, false⟩).2 rfl).1⟩

/-- Claim C3: for every flag combination, the container dependency edges
declared by EcsConstruct are among the three edges web waits on app
(HEALTHY), app waits on init (SUCCESS) and adot-collector waits on the log
router (START), and the resulting dependency graph is acyclic. -/
theorem claimC3_dependency_edges_acyclic :
    ∀ p : EcsConstructProps,
      (∀ e ∈ ecsEdges p,
          e = { dependent := "web", dependsOn := "app",
                condition := DepCondition.HEALTHY } ∨
          e = { dependent := "app", dependsOn := "init",
                condition := DepCondition.SUCCESS } ∨
          e = { dependent := "adot-collector", dependsOn := "logRouter",
                condition := DepCondition.START }) ∧
      Acyclic (ecsEdges p) := by
  intro p
  have hmem : ∀ e ∈ ecsEdges p,
      e = { dependent := "web", dependsOn := "app",
            condition := DepCondition.HEALTHY } ∨
      e = { dependent := "app", dependsOn := "init",
            condition := DepCondition.SUCCESS } ∨
      e = { dependent := "adot-collector", dependsOn := "logRouter",
            condition := DepCondition.START } := by
    obtain ⟨fl, m, au, vk, tr⟩ := p
    cases fl <;> cases m <;> cases tr <;> intro e he <;>
      simp [ecsEdges] at he <;> tauto
  refine ⟨hmem, acyclic_of_rank _
    (fun n => if n = "web" then 3 else if n = "app" then 2
              else if n = "adot-collector" then 1 else 0) ?_⟩
  intro e he
  rcases hmem e he with rfl | rfl | rfl <;> decide

/-- Witness for claim C3 at a concrete input with every feature enabled:
the web edge is among the declared edges, it is one of the three known
edges, and the edge set is acyclic. -/
theorem claimC3_witness :
    ({ dependent := "web", dependsOn := "app",
       condition := DepCondition.HEALTHY } : Edge) ∈
      ecsEdges (⟨some ⟨"lg", "ds", "arn"⟩, true, none, none, true⟩ :
        EcsConstructProps) ∧
    (({ dependent := "web", dependsOn := "app",
        condition := DepCondition.HEALTHY } : Edge) =
        { dependent := "web", dependsOn := "app",
          condition := DepCondition.HEALTHY } ∨
      ({ dependent := "web", dependsOn := "app",
         condition := DepCondition.HEALTHY } : Edge) =
        { dependent := "app", dependsOn := "init",
          condition := DepCondition.SUCCESS } ∨
      ({ dependent := "web", dependsOn := "app",
         condition := DepCondition.HEALTHY } : Edge) =
        { dependent := "adot-collector", dependsOn := "logRouter",
          condition := DepCondition.START }) ∧
    Acyclic (ecsEdges (⟨some ⟨"lg", "ds", "arn"⟩, true, none, none, true⟩ :
      EcsConstructProps)) :=
  ⟨by decide,
   (claimC3_dependency_edges_acyclic
      ⟨some ⟨"lg", "ds", "arn"⟩, true, none, none, true⟩).1 _ (by decide),
   (claimC3_dependency_edges_acyclic
      ⟨some ⟨"lg", "ds", "arn"⟩, true, none, none, true⟩).2⟩

/-- Claim C5: the production binding is the port-80 listener whose rule
forwards to Tg1, the test binding is the port-10080 listener whose rule
forwards to Tg2, the two target groups are distinct, and the service
attaches Tg1 as its primary target and Tg2 as its alternate target. -/
theorem claimC5_traffic_bindings :
    mkAlbConstruct.listener.port = 80 ∧
    mkAlbConstruct.listenerRule.listenerPort = 80 ∧
    mkAlbConstruct.listenerRule.forwardTargetGroups = [mkAlbConstruct.tg1] ∧
    mkAlbConstruct.testListener.port = 10080 ∧
    mkAlbConstruct.testListenerRule.listenerPort = 10080 ∧
    mkAlbConstruct.testListenerRule.forwardTargetGroups = [mkAlbConstruct.tg2] ∧
    mkAlbConstruct.tg1 ≠ mkAlbConstruct.tg2 ∧
    (setupLoadBalancerTarget mkAlbConstruct).primaryTargetGroup =
      mkAlbConstruct.tg1 ∧
    (setupLoadBalancerTarget mkAlbConstruct).alternateTargetGroup =
      mkAlbConstruct.tg2 ∧
    (setupLoadBalancerTarget mkAlbConstruct).productionListenerRule =
      mkAlbConstruct.listenerRule ∧
    (setupLoadBalancerTarget mkAlbConstruct).testListenerRule =
      mkAlbConstruct.testListenerRule := by
  decide

/-- Claim C6: for every EcsConstructProps the service uses the BLUE_GREEN
deployment strategy with a bake time of exactly 60 seconds. -/
theorem claimC6_bake_time :
    ∀ p : EcsConstructProps,
      (createService p).deploymentStrategy = DeploymentStrategyKind.BLUE_GREEN ∧
      (createService p).bakeTimeSeconds = 60 := by
  intro p
  exact ⟨rfl, rfl⟩

/-- Claim C7: for every EcsConstructProps the service is configured with
maxHealthyPercent 200, minHealthyPercent 100 and desired count 2. -/
theorem claimC7_capacity :
    ∀ p : EcsConstructProps,
      (createService p).maxHealthyPercent = 200 ∧
      (createService p).minHealthyPercent = 100 ∧
      (createService p).desiredCount = 2 := by
  intro p
  exact ⟨rfl, rfl, rfl⟩

/-- Counterexample to claim C2 as stated: with metrics collection enabled
but no firelens configuration, setupFireLens returns before
setupAdotCollector ever runs, so no adot-collector container exists. -/
theorem claimC2_counterexample :
    ((⟨none, true, none, none, false⟩ :
        EcsConstructProps).enableFluentBitMetrics = true ∨
      (⟨none, true, none, none, false⟩ :
        EcsConstructProps).enableApplicationSignals = true) ∧
    findContainer
      (ecsContainers (⟨"cluster", "region", "uid"⟩ : CdkContext)
        (⟨none, true, none, none, false⟩ : EcsConstructProps))
      "adot-collector" = none :=
  ⟨Or.inl rfl, rfl⟩

/-- Claim C2 (amended): for every EcsConstructProps in which firelens is
configured and metrics collection or tracing is enabled, the task
definition contains the adot-collector container with a START-condition
dependency on the log-router container; exporter-endpoint environment
variables are injected into the application container exactly when tracing
is enabled. -/
theorem claimC2_collector_requires_firelens :
    ∀ (ctx : CdkContext) (p : EcsConstructProps) (f : FirelensProps),
      p.firelens = some f →
      (p.enableFluentBitMetrics = true ∨ p.enableApplicationSignals = true) →
      findContainer (ecsContainers ctx p) "adot-collector" =
        some (adotCollectorContainer ctx) ∧
      ({ dependent := "adot-collector", dependsOn := "logRouter",
         condition := DepCondition.START } : Edge) ∈ ecsEdges p ∧
      (p.enableApplicationSignals = true →
        ∃ v, lookupEnv (appContainer ctx p).environment
          "OTEL_EXPORTER_OTLP_ENDPOINT" = some v ∧ v ≠ "") ∧
      (p.enableApplicationSignals = false →
        lookupEnv (appContainer ctx p).environment
          "OTEL_EXPORTER_OTLP_ENDPOINT" = none) := by
  intro ctx p f hf hflag
  obtain ⟨fl, m, au, vk, tr⟩ := p
  simp only at hf
  subst hf
  cases m with
  | true =>
      cases tr with
      | true =>
          refine ⟨rfl, by simp [ecsEdges], fun _ => ?_, fun h => (by simp at h)⟩
          cases vk with
          | none => exact ⟨_, rfl, by decide⟩
          | some v => exact ⟨_, rfl, by decide⟩
      | false =>
          refine ⟨rfl, by simp [ecsEdges], fun h => (by simp at h), fun _ => ?_⟩
          cases vk with
          | none => rfl
          | some v => rfl
  | false =>
      cases tr with
      | true =>
          refine ⟨rfl, by simp [ecsEdges], fun _ => ?_, fun h => (by simp at h)⟩
          cases vk with
          | none => exact ⟨_, rfl, by decide⟩
          | some v => exact ⟨_, rfl, by decide⟩
      | false =>
          rcases hflag with h | h <;> simp at h

/-- Witness for the amended claim C2 at a concrete input with firelens and
metrics enabled but tracing disabled: the collector container and its
START edge exist, and no exporter endpoint is injected. -/
theorem claimC2_witness :
    findContainer
      (ecsContainers (⟨"cluster", "region", "uid"⟩ : CdkContext)
        (⟨some ⟨"lg", "ds", "arn"⟩, true, none, none, false⟩ :
          EcsConstructProps)) "adot-collector" =
      some (adotCollectorContainer ⟨"cluster", "region", "uid"⟩) ∧
    ({ dependent := "adot-collector", dependsOn := "logRouter",
       condition := DepCondition.START } : Edge) ∈
      ecsEdges (⟨some ⟨"lg", "ds", "arn"⟩, true, none, none, false⟩ :
        EcsConstructProps) ∧
    lookupEnv
      (appContainer (⟨"cluster", "region", "uid"⟩ : CdkContext)
        (⟨some ⟨"lg", "ds", "arn"⟩, true, none, none, false⟩ :
          EcsConstructProps)).environment
      "OTEL_EXPORTER_OTLP_ENDPOINT" = none :=
  ⟨(claimC2_collector_requires_firelens ⟨"cluster", "region", "uid"⟩
      ⟨some ⟨"lg", "ds", "arn"⟩, true, none, none, false⟩
      ⟨"lg", "ds", "arn"⟩ rfl (Or.inl rfl)).1,
   (claimC2_collector_requires_firelens ⟨"cluster", "region", "uid"⟩
      ⟨some ⟨"lg", "ds", "arn"⟩, true, none, none, false⟩
      ⟨"lg", "ds", "arn"⟩ rfl (Or.inl rfl)).2.1,
   (claimC2_collector_requires_firelens ⟨"cluster", "region", "uid"⟩
      ⟨some ⟨"lg", "ds", "arn"⟩, true, none, none, false⟩
      ⟨"lg", "ds", "arn"⟩ rfl (Or.inl rfl)).2.2.2 rfl⟩

/-- Claim C4: the /health handler replies 503 with status unhealthy
whenever a configured database pool or cache client fails its connectivity
probe, and 200 with status healthy otherwise. -/
theorem claimC4_health_endpoint :
    ∀ s : HealthState,
      (((s.dbConfigured = true ∧ s.dbProbeOk = false) ∨
        (s.cacheConfigured = true ∧ s.cacheProbeOk = false)) →
        healthHandler s = { statusCode := 503, healthStatus := "unhealthy" }) ∧
      (¬((s.dbConfigured = true ∧ s.dbProbeOk = false) ∨
         (s.cacheConfigured = true ∧ s.cacheProbeOk = false)) →
        healthHandler s = { statusCode := 200, healthStatus := "healthy" }) := by
  intro s
  obtain ⟨db, dbok, c, cok⟩ := s
  cases db <;> cases dbok <;> cases c <;> cases cok <;> exact (by decide)

/-- Witness for claim C4: a failing database probe yields 503 unhealthy; a
fully healthy state yields 200 healthy. -/
theorem claimC4_witness :
    healthHandler ⟨true, false, false, true⟩ =
      { statusCode := 503, healthStatus := "unhealthy" } ∧
    healthHandler ⟨true, true, true, true⟩ =
      { statusCode := 200, healthStatus := "healthy" } :=
  ⟨(claimC4_health_endpoint ⟨true, false, false, true⟩).1 (Or.inl ⟨rfl, rfl⟩),
   (claimC4_health_endpoint ⟨true, true, true, true⟩).2 (by decide)⟩

/-- The environment keys buildAppEnvironment injects, as a function of the
feature flags alone. -/
def appEnvKeys (hasValkey tracing : Bool) : List String :=
  (if hasValkey then ["VALKEY_HOST", "VALKEY_PORT", "VALKEY_TLS"] else []) ++
  (if tracing then
     ["NODE_OPTIONS", "OTEL_RESOURCE_ATTRIBUTES", "OTEL_EXPORTER_OTLP_PROTOCOL",
      "OTEL_EXPORTER_OTLP_ENDPOINT", "OTEL_TRACES_EXPORTER",
      "OTEL_METRICS_EXPORTER", "OTEL_LOGS_EXPORTER", "OTEL_TRACES_SAMPLER",
      "OTEL_TRACES_SAMPLER_ARG", "OTEL_PROPAGATORS",
      "OTEL_AWS_APPLICATION_SIGNALS_ENABLED"]
   else [])

/-- The secret keys buildAppSecrets injects, as a function of the aurora
flag alone. -/
def appSecretKeys (hasAurora : Bool) : List String :=
  if hasAurora then
    ["DB_HOST", "DB_PORT", "DB_USERNAME", "DB_PASSWORD", "DB_NAME"]
  else []

/-- The structural shape of a container: everything except the injected
environment and secret values. -/
def containerShape (c : Container) :
    String × Bool × List Nat × List String × List String × List MountPoint :=
  (c.name, c.essential, c.portMappings, c.environment.map Prod.fst,
   c.secrets.map Prod.fst, c.mountPoints)

/-- The dependency edges as a function of the feature flags alone. -/
def edgesOf (hasFirelens metrics tracing : Bool) : List Edge :=
  (if tracing then
     [{ dependent := "app", dependsOn := "init",
        condition := DepCondition.SUCCESS }]
   else []) ++
  [{ dependent := "web", dependsOn := "app",
     condition := DepCondition.HEALTHY }] ++
  (if hasFirelens && (metrics || tracing) then
     [{ dependent := "adot-collector", dependsOn := "logRouter",
        condition := DepCondition.START }]
   else [])

/-- The container shapes as a function of the feature flags alone. -/
def ecsContainerShapes (hasFirelens metrics hasAurora hasValkey tracing : Bool) :
    List (String × Bool × List Nat × List String × List String × List MountPoint) :=
  (if tracing then [containerShape adotInitContainer] else []) ++
  [containerShape webContainer,
   ("app", true, [], appEnvKeys hasValkey tracing, appSecretKeys hasAurora,
    if tracing then
      [{ sourceVolume := "opentelemetry-auto-instrumentation",
         containerPath := "/otel-auto-instrumentation", readOnly := true }]
    else [])] ++
  (if hasFirelens then
     [("logRouter", true, [],
       ["LOG_GROUP_NAME", "FIREHOSE_DELIVERY_STREAM_NAME",
        "aws_fluent_bit_init_s3_1", "aws_fluent_bit_init_s3_2"], [], [])] ++
     (if metrics || tracing then
        [("adot-collector", false, [], ["AWS_REGION"], ["AOT_CONFIG_CONTENT"], [])]
      else [])
   else [])

/-- The injected environment keys depend only on the feature flags. -/
theorem buildAppEnvironment_keys (ctx : CdkContext) (p : EcsConstructProps) :
    (buildAppEnvironment ctx p).map Prod.fst =
      appEnvKeys p.valkey.isSome p.enableApplicationSignals := by
  obtain ⟨fl, m, au, vk, tr⟩ := p
  cases vk <;> cases tr <;> rfl

/-- The injected secret keys depend only on the aurora flag. -/
theorem buildAppSecrets_keys (p : EcsConstructProps) :
    (buildAppSecrets p).map Prod.fst = appSecretKeys p.aurora.isSome := by
  obtain ⟨fl, m, au, vk, tr⟩ := p
  cases au <;> rfl

/-- The dependency edges depend only on the feature flags. -/
theorem ecsEdges_flags (p : EcsConstructProps) :
    ecsEdges p =
      edgesOf p.firelens.isSome p.enableFluentBitMetrics
        p.enableApplicationSignals := by
  obtain ⟨fl, m, au, vk, tr⟩ := p
  cases fl <;> cases m <;> cases tr <;> rfl

/-- The container shapes depend only on the feature flags. -/
theorem ecsContainers_shape (ctx : CdkContext) (p : EcsConstructProps) :
    (ecsContainers ctx p).map containerShape =
      ecsContainerShapes p.firelens.isSome p.enableFluentBitMetrics
        p.aurora.isSome p.valkey.isSome p.enableApplicationSignals := by
  obtain ⟨fl, m, au, vk, tr⟩ := p
  cases fl <;> cases m <;> cases au <;> cases vk <;> cases tr <;> rfl

/-- Two props agree on the five feature flags (presence of the optional
groups and the two booleans). -/
def sameFeatureFlags (p q : EcsConstructProps) : Prop :=
  p.firelens.isSome = q.firelens.isSome ∧
  p.enableFluentBitMetrics = q.enableFluentBitMetrics ∧
  p.aurora.isSome = q.aurora.isSome ∧
  p.valkey.isSome = q.valkey.isSome ∧
  p.enableApplicationSignals = q.enableApplicationSignals

/-- Claim C8: materialization is deterministic in the feature flags: any
two props with identical flag values yield identical injected environment
key lists, identical injected secret key lists, structurally identical
container lists and identical dependency edges, whatever the
externally-sourced values are. -/
theorem claimC8_deterministic_materialization :
    ∀ (ctx1 ctx2 : CdkContext) (p q : EcsConstructProps),
      sameFeatureFlags p q →
      (buildAppEnvironment ctx1 p).map Prod.fst =
        (buildAppEnvironment ctx2 q).map Prod.fst ∧
      (buildAppSecrets p).map Prod.fst = (buildAppSecrets q).map Prod.fst ∧
      (ecsContainers ctx1 p).map containerShape =
        (ecsContainers ctx2 q).map containerShape ∧
      ecsEdges p = ecsEdges q := by
  intro ctx1 ctx2 p q h
  obtain ⟨h1, h2, h3, h4, h5⟩ := h
  refine ⟨?_, ?_, ?_, ?_⟩
  · rw [buildAppEnvironment_keys, buildAppEnvironment_keys, h4, h5]
  · rw [buildAppSecrets_keys, buildAppSecrets_keys, h3]
  · rw [ecsContainers_shape, ecsContainers_shape, h1, h2, h3, h4, h5]
  · rw [ecsEdges_flags, ecsEdges_flags, h1, h2, h5]

/-- Witness for claim C8: two runs with the same flags but different
cluster names, endpoints and secret names produce structurally identical
containers and identical edges. -/
theorem claimC8_witness :
    sameFeatureFlags
      (⟨some ⟨"lgA", "dsA", "arnA"⟩, true, some ⟨"secA"⟩, some ⟨"epA", 6379⟩,
        true⟩ : EcsConstructProps)
      (⟨some ⟨"lgB", "dsB", "arnB"⟩, true, some ⟨"secB"⟩, some ⟨"epB", 6380⟩,
        true⟩ : EcsConstructProps) ∧
    (ecsContainers (⟨"cA", "rA", "uA"⟩ : CdkContext)
        (⟨some ⟨"lgA", "dsA", "arnA"⟩, true, some ⟨"secA"⟩, some ⟨"epA", 6379⟩,
          true⟩ : EcsConstructProps)).map containerShape =
      (ecsContainers (⟨"cB", "rB", "uB"⟩ : CdkContext)
        (⟨some ⟨"lgB", "dsB", "arnB"⟩, true, some ⟨"secB"⟩, some ⟨"epB", 6380⟩,
          true⟩ : EcsConstructProps)).map containerShape ∧
    ecsEdges (⟨some ⟨"lgA", "dsA", "arnA"⟩, true, some ⟨"secA"⟩,
        some ⟨"epA", 6379⟩, true⟩ : EcsConstructProps) =
      ecsEdges (⟨some ⟨"lgB", "dsB", "arnB"⟩, true, some ⟨"secB"⟩,
        some ⟨"epB", 6380⟩, true⟩ : EcsConstructProps) :=
  ⟨⟨rfl, rfl, rfl, rfl, rfl⟩,
   (claimC8_deterministic_materialization ⟨"cA", "rA", "uA"⟩ ⟨"cB", "rB", "uB"⟩
      ⟨some ⟨"lgA", "dsA", "arnA"⟩, true, some ⟨"secA"⟩, some ⟨"epA", 6379⟩, true⟩
      ⟨some ⟨"lgB", "dsB", "arnB"⟩, true, some ⟨"secB"⟩, some ⟨"epB", 6380⟩, true⟩
      ⟨rfl, rfl, rfl, rfl, rfl⟩).2.2.1,
   (claimC8_deterministic_materialization ⟨"cA", "rA", "uA"⟩ ⟨"cB", "rB", "uB"⟩
      ⟨some ⟨"lgA", "dsA", "arnA"⟩, true, some ⟨"secA"⟩, some ⟨"epA", 6379⟩, true⟩
      ⟨some ⟨"lgB", "dsB", "arnB"⟩, true, some ⟨"secB"⟩, some ⟨"epB", 6380⟩, true⟩
      ⟨rfl, rfl, rfl, rfl, rfl⟩).2.2.2⟩

/-- Claim C9: with aurora configured the application container secrets are
exactly DB_HOST, DB_PORT, DB_USERNAME, DB_PASSWORD, DB_NAME drawn from the
aurora secret, and empty otherwise; with valkey configured the application
environment binds VALKEY_HOST, VALKEY_PORT and VALKEY_TLS (the latter to
true), and none of them otherwise. -/
theorem claimC9_injected_names :
    ∀ (ctx : CdkContext) (p : EcsConstructProps),
      (∀ a, p.aurora = some a →
        (appContainer ctx p).secrets =
          [("DB_HOST", EcsSecret.secretsManager a.secretName "host"),
           ("DB_PORT", EcsSecret.secretsManager a.secretName "port"),
           ("DB_USERNAME", EcsSecret.secretsManager a.secretName "username"),
           ("DB_PASSWORD", EcsSecret.secretsManager a.secretName "password"),
           ("DB_NAME", EcsSecret.secretsManager a.secretName "dbname")]) ∧
      (p.aurora = none → (appContainer ctx p).secrets = []) ∧
      (∀ v, p.valkey = some v →
        lookupEnv (appContainer ctx p).environment "VALKEY_HOST" =
          some v.endpoint ∧
        lookupEnv (appContainer ctx p).environment "VALKEY_PORT" =
          some (toString v.port) ∧
        lookupEnv (appContainer ctx p).environment "VALKEY_TLS" =
          some "true") ∧
      (p.valkey = none →
        lookupEnv (appContainer ctx p).environment "VALKEY_HOST" = none ∧
        lookupEnv (appContainer ctx p).environment "VALKEY_PORT" = none ∧
        lookupEnv (appContainer ctx p).environment "VALKEY_TLS" = none) := by
  intro ctx p
  obtain ⟨fl, m, au, vk, tr⟩ := p
  refine ⟨?_, ?_, ?_, ?_⟩
  · intro a ha
    cases au with
    | none => simp at ha
    | some a0 =>
        simp only [Option.some.injEq] at ha
        subst ha
        rfl
  · intro ha
    cases au with
    | none => rfl
    | some a0 => simp at ha
  · intro v hv
    cases vk with
    | none => simp at hv
    | some v0 =>
        simp only [Option.some.injEq] at hv
        subst hv
        exact ⟨rfl, rfl, rfl⟩
  · intro hv
    cases vk with
    | none => cases tr <;> exact ⟨rfl, rfl, rfl⟩
    | some v0 => simp at hv

/-- Witness for claim C9 at a concrete input with aurora and valkey
configured. -/
theorem claimC9_witness :
    (appContainer (⟨"cluster", "region", "uid"⟩ : CdkContext)
        (⟨none, false, some ⟨"sec"⟩, some ⟨"ep", 6379⟩, false⟩ :
          EcsConstructProps)).secrets =
      [("DB_HOST", EcsSecret.secretsManager "sec" "host"),
       ("DB_PORT", EcsSecret.secretsManager "sec" "port"),
       ("DB_USERNAME", EcsSecret.secretsManager "sec" "username"),
       ("DB_PASSWORD", EcsSecret.secretsManager "sec" "password"),
       ("DB_NAME", EcsSecret.secretsManager "sec" "dbname")] ∧
    lookupEnv
      (appContainer (⟨"cluster", "region", "uid"⟩ : CdkContext)
        (⟨none, false, some ⟨"sec"⟩, some ⟨"ep", 6379⟩, false⟩ :
          EcsConstructProps)).environment "VALKEY_TLS" = some "true" :=
  ⟨(claimC9_injected_names ⟨"cluster", "region", "uid"⟩
      ⟨none, false, some ⟨"sec"⟩, some ⟨"ep", 6379⟩, false⟩).1 ⟨"sec"⟩ rfl,
   ((claimC9_injected_names ⟨"cluster", "region", "uid"⟩
      ⟨none, false, some ⟨"sec"⟩, some ⟨"ep", 6379⟩, false⟩).2.2.1
      ⟨"ep", 6379⟩ rfl).2.2⟩

/-- The retry loop never rejects: every attempt outcome, including a thrown
error, yields a normal return. -/
theorem initRetryLoop_ok (outcomes : Nat → Except String Unit) :
    ∀ (n s : Nat), ∃ r, initRetryLoop outcomes s n = Except.ok r := by
  intro n
  induction n with
  | zero => exact fun s => ⟨InitDbResult.gaveUp, rfl⟩
  | succ k ih =>
      intro s
      cases h : outcomes s with
      | ok u => exact ⟨InitDbResult.initialized s, by simp [initRetryLoop, h]⟩
      | error e =>
          obtain ⟨r, hr⟩ := ih (s + 1)
          exact ⟨r, by simp [initRetryLoop, h, hr]⟩

/-- A successful attempt number reported by the retry loop lies between the
starting attempt and the last attempt the budget allows. -/
theorem initRetryLoop_bound (outcomes : Nat → Except String Unit) :
    ∀ (n s a : Nat),
      initRetryLoop outcomes s n = Except.ok (InitDbResult.initialized a) →
      s ≤ a ∧ a < s + n := by
  intro n
  induction n with
  | zero =>
      intro s a h
      simp [initRetryLoop] at h
  | succ k ih =>
      intro s a h
      cases ho : outcomes s with
      | ok u =>
          simp [initRetryLoop, ho] at h
          omega
      | error e =>
          simp [initRetryLoop, ho] at h
          have := ih (s + 1) a h
          omega

/-- Claim C10: initializeDatabase never rejects (every table-creation error
is caught and at most maxRetries attempts run), so startServer always
reaches the listener bind; getPool is null when DB_HOST is unset, in which
case initializeDatabase skips and closePool performs nothing. -/
theorem claimC10_init_db_total :
    ∀ (pool : Option String) (outcomes : Nat → Except String Unit)
      (maxRetries : Nat),
      (∃ r, initializeDatabase pool outcomes maxRetries = Except.ok r) ∧
      startServer pool outcomes maxRetries = Except.ok true ∧
      (∀ a, initializeDatabase pool outcomes maxRetries =
          Except.ok (InitDbResult.initialized a) →
        1 ≤ a ∧ a ≤ maxRetries) ∧
      getPool none = none ∧
      initializeDatabase (getPool none) outcomes maxRetries =
        Except.ok InitDbResult.skipped ∧
      closePoolActions (getPool none) = [] := by
  intro pool outcomes maxRetries
  have hok : ∃ r, initializeDatabase pool outcomes maxRetries = Except.ok r := by
    cases pool with
    | none => exact ⟨InitDbResult.skipped, rfl⟩
    | some h => exact initRetryLoop_ok outcomes maxRetries 1
  refine ⟨hok, ?_, ?_, rfl, rfl, rfl⟩
  · obtain ⟨r, hr⟩ := hok
    simp [startServer, hr]
  · intro a ha
    cases pool with
    | none => simp [initializeDatabase] at ha
    | some h =>
        have := initRetryLoop_bound outcomes maxRetries 1 a ha
        omega

/-- Witness for claim C10: with a configured pool whose first attempt
throws and second succeeds, initialization returns normally at attempt 2,
within the retry budget, and the server binds its listener; with no
DB_HOST the pool is null. -/
theorem claimC10_witness :
    initializeDatabase (some "db")
        (fun i => if i < 2 then Except.error "connection refused"
                  else Except.ok ()) 30 =
      Except.ok (InitDbResult.initialized 2) ∧
    (1 ≤ 2 ∧ 2 ≤ 30) ∧
    startServer (some "db")
        (fun i => if i < 2 then Except.error "connection refused"
                  else Except.ok ()) 30 = Except.ok true ∧
    getPool none = none :=
  ⟨rfl,
   (claimC10_init_db_total (some "db")
      (fun i => if i < 2 then Except.error "connection refused"
                else Except.ok ()) 30).2.2.1 2 rfl,
   (claimC10_init_db_total (some "db")
      (fun i => if i < 2 then Except.error "connection refused"
                else Except.ok ()) 30).2.1,
   (claimC10_init_db_total (some "db")
      (fun i => if i < 2 then Except.error "connection refused"
                else Except.ok ()) 30).2.2.2.1⟩
